import Mathlib

/-!
Verification development for the placement-eligibility dashboard (`src/app.py`).

The program has three logical pieces:
* a fixed query catalog `SQL_QUERIES` mapping report names to SQL text;
* an eligibility filter builder (`eligibility_query`) that interpolates eleven
  numeric thresholds and two boolean flags into one SQL statement joining the
  four tables `Students`, `Programming`, `SoftSkills`, `Placements`;
* an executor (`DatabaseManager.execute_query`) that runs a statement and
  degrades every execution failure to an empty result plus a diagnostic.

We embed the relational data model and the SQL semantics of the built filter
statement (inner join on `student_id`, conjunction of lower-bound comparisons,
optional equality clauses, `ORDER BY mock_interview_score DESC,
latest_project_score DESC`) as executable Lean definitions, embed the builder's
statement text as a Lean string function, the slider/checkbox configuration of
the Filter Students page, the catalog, and the histogram `CASE` classifier, and
prove the specified properties about them.
-/

namespace PlacementApp

/-- A row of the `Students` table: `student_id, name, age, gender, course_batch, city`. -/
structure Student where
  student_id : Nat
  name : String
  age : Int
  gender : String
  course_batch : String
  city : String
  deriving Repr, DecidableEq

/-- A row of the `Programming` table (column names as in the dataset, including
the misspelling `assesment_completed`). -/
structure ProgrammingRec where
  student_id : Nat
  problem_solved : Int
  assesment_completed : Int
  Mini_project : Int
  latest_project_score : Int
  Certification : String
  deriving Repr, DecidableEq

/-- A row of the `SoftSkills` table. -/
structure SoftSkillsRec where
  student_id : Nat
  communication : Int
  team_work : Int
  presentation : Int
  leadership : Int
  Critical_thinking : Int
  interpersonal_skill : Int
  deriving Repr, DecidableEq

/-- A row of the `Placements` table (column names as in the dataset, including
the misspelling `internship_complted`). -/
structure PlacementRec where
  student_id : Nat
  mock_interview_score : Int
  internship_complted : String
  Placement_status : String
  Company_name : String
  placement_package : Int
  deriving Repr, DecidableEq

/-- The backing SQLite database: the four pre-existing tables. -/
structure Db where
  students : List Student
  programming : List ProgrammingRec
  softskills : List SoftSkillsRec
  placements : List PlacementRec
  deriving Repr

/-- One row of the filter result: the twenty-two projected columns of the
`SELECT` list of `eligibility_query`, in source order. -/
structure Row where
  student_id : Nat
  name : String
  age : Int
  gender : String
  course_batch : String
  city : String
  problem_solved : Int
  assesment_completed : Int
  Mini_project : Int
  latest_project_score : Int
  Certification : String
  communication : Int
  team_work : Int
  presentation : Int
  leadership : Int
  Critical_thinking : Int
  interpersonal_skill : Int
  mock_interview_score : Int
  internship_complted : String
  Placement_status : String
  Company_name : String
  placement_package : Int
  deriving Repr, DecidableEq

/-- Assemble one joined row from one record of each table (the projection of
the `SELECT` list of `eligibility_query`). -/
def mkRow (s : Student) (p : ProgrammingRec) (ss : SoftSkillsRec) (pl : PlacementRec) : Row :=
  { student_id := s.student_id
    name := s.name
    age := s.age
    gender := s.gender
    course_batch := s.course_batch
    city := s.city
    problem_solved := p.problem_solved
    assesment_completed := p.assesment_completed
    Mini_project := p.Mini_project
    latest_project_score := p.latest_project_score
    Certification := p.Certification
    communication := ss.communication
    team_work := ss.team_work
    presentation := ss.presentation
    leadership := ss.leadership
    Critical_thinking := ss.Critical_thinking
    interpersonal_skill := ss.interpersonal_skill
    mock_interview_score := pl.mock_interview_score
    internship_complted := pl.internship_complted
    Placement_status := pl.Placement_status
    Company_name := pl.Company_name
    placement_package := pl.placement_package }

/-- Inner join of the four tables on the shared `student_id`, as written in
`eligibility_query`: `FROM Students S JOIN Programming P ON S.student_id =
P.student_id JOIN SoftSkills SS ON ... JOIN Placements PL ON ...`. -/
def joinRows (db : Db) : List Row :=
  db.students.flatMap fun s =>
    db.programming.flatMap fun p =>
      db.softskills.flatMap fun ss =>
        db.placements.flatMap fun pl =>
          if s.student_id = p.student_id ∧ s.student_id = ss.student_id ∧
              s.student_id = pl.student_id then
            [mkRow s p ss pl]
          else []

/-- The thirteen inputs of the Filter Students page: eleven numeric thresholds
(from `st.slider`) and two boolean flags (from `st.checkbox`). -/
structure Criteria where
  min_problem_solved : Int
  min_assesment_completed : Int
  min_mini_project : Int
  min_latest_project_score : Int
  min_communication : Int
  min_team_work : Int
  min_presentation : Int
  min_leadership : Int
  min_critical_thinking : Int
  min_interpersonal_skill : Int
  min_mock_interview_score : Int
  required_certification : Bool
  required_internship : Bool
  deriving Repr, DecidableEq

/-- The `WHERE` clause of `eligibility_query`: the eleven `>=` comparisons
ANDed, then `AND P.Certification = "Yes"` only when `required_certification`
and `AND PL.internship_complted = "yes"` only when `required_internship`. -/
def rowSatisfies (c : Criteria) (r : Row) : Bool :=
  (c.min_problem_solved ≤ r.problem_solved) &&
  (c.min_assesment_completed ≤ r.assesment_completed) &&
  (c.min_mini_project ≤ r.Mini_project) &&
  (c.min_latest_project_score ≤ r.latest_project_score) &&
  (c.min_communication ≤ r.communication) &&
  (c.min_team_work ≤ r.team_work) &&
  (c.min_presentation ≤ r.presentation) &&
  (c.min_leadership ≤ r.leadership) &&
  (c.min_critical_thinking ≤ r.Critical_thinking) &&
  (c.min_interpersonal_skill ≤ r.interpersonal_skill) &&
  (c.min_mock_interview_score ≤ r.mock_interview_score) &&
  (if c.required_certification then r.Certification == "Yes" else true) &&
  (if c.required_internship then r.internship_complted == "yes" else true)

/-- The sort key of `ORDER BY PL.mock_interview_score DESC,
P.latest_project_score DESC`: `a` may stand before `b` when `a`'s mock
interview score is larger, or the scores tie and `a`'s latest project score is
at least `b`'s. -/
def rowOrder (a b : Row) : Prop :=
  b.mock_interview_score < a.mock_interview_score ∨
    (a.mock_interview_score = b.mock_interview_score ∧
      b.latest_project_score ≤ a.latest_project_score)

instance : DecidableRel rowOrder := fun a b => by
  unfold rowOrder; infer_instance

instance : IsTotal Row rowOrder where
  total a b := by
    unfold rowOrder
    rcases lt_trichotomy a.mock_interview_score b.mock_interview_score with h | h | h
    · exact Or.inr (Or.inl h)
    · rcases le_total b.latest_project_score a.latest_project_score with h2 | h2
      · exact Or.inl (Or.inr ⟨h, h2⟩)
      · exact Or.inr (Or.inr ⟨h.symm, h2⟩)
    · exact Or.inl (Or.inl h)

instance : IsTrans Row rowOrder where
  trans a b c hab hbc := by
    unfold rowOrder at *
    rcases hab with h1 | ⟨h1, h1p⟩ <;> rcases hbc with h2 | ⟨h2, h2p⟩
    · exact Or.inl (lt_trans h2 h1)
    · exact Or.inl (h2 ▸ h1)
    · exact Or.inl (h1 ▸ h2)
    · exact Or.inr ⟨h1.trans h2, le_trans h2p h1p⟩

/-- The result set of the built filter statement: inner join, `WHERE` filter,
`ORDER BY mock_interview_score DESC, latest_project_score DESC`. -/
def filterResult (db : Db) (c : Criteria) : List Row :=
  List.insertionSort rowOrder ((joinRows db).filter (rowSatisfies c))

/-! ### The builder's statement text

`eligibility_query` in `src/app.py` is one Python f-string; we reproduce its
rendered text exactly, with the eleven slider values interpolated in decimal
and the two conditional clauses present only when their flag is set. -/

/-- The twenty-two `SELECT` items of `eligibility_query`, in source order, as
(table alias, column name) pairs. -/
def selectedColumns : List (String × String) :=
  [("S", "student_id"), ("S", "name"), ("S", "age"), ("S", "gender"),
   ("S", "course_batch"), ("S", "city"),
   ("P", "problem_solved"), ("P", "assesment_completed"), ("P", "Mini_project"),
   ("P", "latest_project_score"), ("P", "Certification"),
   ("SS", "communication"), ("SS", "team_work"), ("SS", "presentation"),
   ("SS", "leadership"), ("SS", "Critical_thinking"), ("SS", "interpersonal_skill"),
   ("PL", "mock_interview_score"), ("PL", "internship_complted"),
   ("PL", "Placement_status"), ("PL", "Company_name"), ("PL", "placement_package")]

/-- The unqualified result-column names of the built statement (the header of
the displayed table and of the CSV export). -/
def resultColumns : List String :=
  selectedColumns.map Prod.snd

/-- The `SELECT` list rendered as in the f-string: one item per line, indented
twelve spaces. -/
def selectClause : String :=
  String.intercalate ",\n            " (selectedColumns.map fun q => q.1 ++ "." ++ q.2)

/-- The f-string's fixed head: `SELECT` list, the three inner joins on
`student_id`, and `WHERE`, up to the first threshold comparison. -/
def querySelectSection : String :=
  "\n        SELECT\n            " ++ selectClause ++
  "\n        FROM Students S" ++
  "\n        JOIN Programming P ON S.student_id = P.student_id" ++
  "\n        JOIN SoftSkills SS ON S.student_id = SS.student_id" ++
  "\n        JOIN Placements PL ON S.student_id = PL.student_id" ++
  "\n        WHERE\n            "

/-- Line 265 of the source: the conditional certification clause
`{'AND P.Certification = "Yes"' if required_certification else ''}`. -/
def certClause (c : Criteria) : String :=
  if c.required_certification then "AND P.Certification = \"Yes\"" else ""

/-- Line 266 of the source: the conditional internship clause
`{'AND PL.internship_complted = "yes"' if required_internship else ''}`. -/
def internshipClause (c : Criteria) : String :=
  if c.required_internship then "AND PL.internship_complted = \"yes\"" else ""

/-- The rendered text of the f-string `eligibility_query` of `src/app.py`
(lines 225-268) for a given setting of the thirteen inputs. -/
def eligibility_query (c : Criteria) : String :=
  querySelectSection ++
  "P.problem_solved >= " ++ toString c.min_problem_solved ++ " AND\n            " ++
  "P.assesment_completed >= " ++ toString c.min_assesment_completed ++ " AND\n            " ++
  "P.Mini_project >= " ++ toString c.min_mini_project ++ " AND\n            " ++
  "P.latest_project_score >= " ++ toString c.min_latest_project_score ++ " AND\n            " ++
  "SS.communication >= " ++ toString c.min_communication ++ " AND\n            " ++
  "SS.team_work >= " ++ toString c.min_team_work ++ " AND\n            " ++
  "SS.presentation >= " ++ toString c.min_presentation ++ " AND\n            " ++
  "SS.leadership >= " ++ toString c.min_leadership ++ " AND\n            " ++
  "SS.Critical_thinking >= " ++ toString c.min_critical_thinking ++ " AND\n            " ++
  "SS.interpersonal_skill >= " ++ toString c.min_interpersonal_skill ++ " AND\n            " ++
  "PL.mock_interview_score >= " ++ toString c.min_mock_interview_score ++ "\n            " ++
  certClause c ++ "\n            " ++ internshipClause c ++
  "\n        ORDER BY PL.mock_interview_score DESC, P.latest_project_score DESC\n    "

/-! ### The Filter Students page inputs -/

/-- Configuration of one `st.slider` call: label, minimum, maximum, default. -/
structure SliderCfg where
  label : String
  minVal : Int
  maxVal : Int
  defVal : Int
  deriving Repr, DecidableEq

/-- The eleven threshold sliders of the Filter Students page (`src/app.py`
lines 200-215), in source order. -/
def filterSliders : List SliderCfg :=
  [⟨"Minimum Problems Solved", 0, 50, 20⟩,
   ⟨"Minimum Assessments Completed", 0, 10, 3⟩,
   ⟨"Minimum Mini Projects", 0, 5, 1⟩,
   ⟨"Minimum Latest Project Score", 0, 100, 60⟩,
   ⟨"Minimum Communication Score", 0, 100, 65⟩,
   ⟨"Minimum Team Work Score", 0, 50, 25⟩,
   ⟨"Minimum Presentation Score", 0, 10, 5⟩,
   ⟨"Minimum Leadership Score", 0, 5, 2⟩,
   ⟨"Minimum Critical Thinking Score", 0, 5, 2⟩,
   ⟨"Minimum Interpersonal Skill Score", 0, 100, 60⟩,
   ⟨"Minimum Mock Interview Score", 0, 100, 70⟩]

/-- Default of the `st.checkbox("Certification Required", value=False)` input. -/
def required_certification_default : Bool := false

/-- Default of the `st.checkbox("Internship Completed (Yes)", value=True)` input. -/
def required_internship_default : Bool := true

/-! ### The query catalog `SQL_QUERIES` -/

/-- The `SQL_QUERIES` dictionary of `src/app.py` (lines 78-176) in insertion
order: report name to verbatim SQL text. The two `#` characters inside the
"Distribution of Mock Interview Scores" entry are in the Python source: they
are Python-style comments written inside the SQL string itself. -/
def SQL_QUERIES : List (String × String) :=
  [("Total Students", "SELECT COUNT(*) FROM Students;"),
   ("Average Age of Students", "SELECT AVG(age) FROM Students;"),
   ("Students by Course Batch",
    "SELECT course_batch, COUNT(*) AS count FROM Students GROUP BY course_batch ORDER BY count DESC;"),
   ("Average Programming Problems Solved",
    "\n        SELECT AVG(P.problem_solved)\n        FROM Programming P;\n    "),
   ("Top 5 Students by Latest Project Score",
    "\n        SELECT S.name, P.latest_project_score\n        FROM Students S" ++
    "\n        JOIN Programming P ON S.student_id = P.student_id" ++
    "\n        ORDER BY P.latest_project_score DESC\n        LIMIT 5;\n    "),
   ("Average Soft Skills Score (Overall)",
    "\n        SELECT AVG(\n            COALESCE(communication, 0) +" ++
    "\n            COALESCE(team_work, 0) +\n            COALESCE(presentation, 0) +" ++
    "\n            COALESCE(leadership, 0) +\n            COALESCE(Critical_thinking, 0) +" ++
    "\n            COALESCE(interpersonal_skill, 0)\n        ) / 6 AS avg_soft_skills_score" ++
    "\n        FROM SoftSkills;\n    "),
   ("Students with Internship Completed",
    "\n        SELECT S.name, S.course_batch\n        FROM Students S" ++
    "\n        JOIN Placements PL ON S.student_id = PL.student_id" ++
    "\n        WHERE PL.internship_complted = 'yes';\n    "),
   ("Distribution of Mock Interview Scores",
    "\n        SELECT\n            CASE # SQL's CASE statement allows defining categories based on score ranges" ++
    "\n                WHEN mock_interview_score BETWEEN 0 AND 49 THEN '0-49 (Poor)'" ++
    "\n                WHEN mock_interview_score BETWEEN 50 AND 69 THEN '50-69 (Average)'" ++
    "\n                WHEN mock_interview_score BETWEEN 70 AND 89 THEN '70-89 (Good)'" ++
    "\n                WHEN mock_interview_score BETWEEN 90 AND 100 THEN '90-100 (Excellent)'" ++
    "\n                ELSE 'N/A'\n            END AS score_range," ++
    "\n            COUNT(*) AS num_students\n        FROM Placements" ++
    "\n        GROUP BY score_range # Group results by the defined score ranges" ++
    "\n        ORDER BY score_range;\n    "),
   ("Students Ready for Placement",
    "\n        SELECT S.name, S.course_batch, PL.mock_interview_score, PL.Placement_status, PL.Company_name" ++
    "\n        FROM Students S\n        JOIN Placements PL ON S.student_id = PL.student_id" ++
    "\n        WHERE PL.Placement_status = 'Ready' OR PL.Placement_status = 'Placed';\n    "),
   ("Average Placement Package by Batch",
    "\n        SELECT S.course_batch, AVG(PL.placement_package) AS avg_package" ++
    "\n        FROM Students S\n        JOIN Placements PL ON S.student_id = PL.student_id" ++
    "\n        WHERE PL.Placement_status = 'Placed'\n        GROUP BY S.course_batch" ++
    "\n        ORDER BY avg_package DESC;\n    "),
   ("Students with High Mock Interview Scores and Placement Status",
    "\n        SELECT\n            S.name,\n            S.course_batch," ++
    "\n            PL.mock_interview_score,\n            PL.Placement_status," ++
    "\n            PL.Company_name\n        FROM\n            Students S" ++
    "\n        JOIN\n            Placements PL ON S.student_id = PL.student_id" ++
    "\n        WHERE\n            PL.Placement_status IN ('Ready', 'Placed')" ++
    "\n        ORDER BY\n            PL.mock_interview_score DESC;\n    "),
   ("Student with Highest Placement Package",
    "\n        SELECT\n            S.name,\n            S.course_batch," ++
    "\n            PL.Company_name,\n            PL.placement_package" ++
    "\n        FROM\n            Students S" ++
    "\n        JOIN\n            Placements PL ON S.student_id = PL.student_id" ++
    "\n        WHERE\n            PL.Placement_status = 'Placed'" ++
    "\n        ORDER BY\n            PL.placement_package DESC\n        LIMIT 1;\n    "),
   ("Count Students by City",
    "\n        SELECT city, COUNT(student_id) AS NumberOfStudents" ++
    "\n        FROM Students\n        GROUP BY city" ++
    "\n        ORDER BY NumberOfStudents DESC;\n    ")]

/-- Catalog lookup: Python dictionary access `SQL_QUERIES[name]`. -/
def sqlLookup (reportName : String) : Option String :=
  (SQL_QUERIES.find? fun e => e.1 == reportName).map Prod.snd

/-! ### The histogram `CASE` classifier

The bucketing of the "Distribution of Mock Interview Scores" statement: each
`WHEN ... BETWEEN lo AND hi` tests inclusively and in order; a NULL score
matches no `BETWEEN` arm and falls through to `ELSE 'N/A'`, as does any score
outside 0-100. -/

/-- The `CASE` expression of the mock-interview histogram, on a possibly NULL
score. -/
def score_range (s : Option Int) : String :=
  match s with
  | none => "N/A"
  | some v =>
    if 0 ≤ v ∧ v ≤ 49 then "0-49 (Poor)"
    else if 50 ≤ v ∧ v ≤ 69 then "50-69 (Average)"
    else if 70 ≤ v ∧ v ≤ 89 then "70-89 (Good)"
    else if 90 ≤ v ∧ v ≤ 100 then "90-100 (Excellent)"
    else "N/A"

/-! ### The query executor `DatabaseManager.execute_query`

Python execution may raise; we model a computation that may raise as an
`Except PyError` value. The backend (`pd.read_sql_query` over the SQLite
connection) is an arbitrary function from statement text and optional
parameters to either a table or a raised error. `execute_query` wraps it in
`try/except`: a `pd.io.sql.DatabaseError` is reported via `st.error` with one
message, any other `Exception` with another, and both degrade to
`pd.DataFrame()` (an empty table). Diagnostics (`st.error` calls) are
collected as a list of messages. -/

/-- A table result: rows of cells, as a pandas DataFrame of an executed query. -/
abbrev Table := List (List String)

/-- An error raised during query execution: either the pandas
`DatabaseError` (malformed SQL, backend error) or any other `Exception`. -/
inductive PyError where
  | databaseError (msg : String)
  | otherError (msg : String)
  deriving Repr, DecidableEq

/-- `DatabaseManager.execute_query` (`src/app.py` lines 42-61) over an
arbitrary backend: returns the backend's table and no diagnostic on success,
and an empty table plus the corresponding `st.error` diagnostic on either
kind of raised error. The `Except` in the result type is the channel for
exceptions propagating past the call boundary; `execute_query` never uses it. -/
def execute_query (backend : String → Option (List String) → Except PyError Table)
    (query : String) (params : Option (List String)) :
    Except PyError (Table × List String) :=
  match backend query params with
  | .ok df => .ok (df, [])
  | .error (.databaseError e) => .ok ([], ["Error executing query: " ++ e])
  | .error (.otherError e) => .ok ([], ["An unexpected error occurred: " ++ e])

/-! ### Concrete test data

A small database instance used by the witnesses: two students with one
matching row in every table, both passing the default criteria. -/

/-- Test student 1. -/
def s1 : Student := ⟨1, "Asha", 22, "F", "Batch1", "Chennai"⟩

/-- Test programming record for student 1. -/
def p1 : ProgrammingRec := ⟨1, 30, 5, 2, 80, "Yes"⟩

/-- Test soft-skills record for student 1. -/
def ss1 : SoftSkillsRec := ⟨1, 70, 30, 6, 3, 3, 65⟩

/-- Test placement record for student 1. -/
def pl1 : PlacementRec := ⟨1, 90, "yes", "Ready", "Acme", 600000⟩

/-- Test student 2. -/
def s2 : Student := ⟨2, "Ravi", 23, "M", "Batch1", "Pune"⟩

/-- Test programming record for student 2. -/
def p2 : ProgrammingRec := ⟨2, 25, 4, 1, 70, "No"⟩

/-- Test soft-skills record for student 2. -/
def ss2 : SoftSkillsRec := ⟨2, 66, 26, 5, 2, 2, 61⟩

/-- Test placement record for student 2. -/
def pl2 : PlacementRec := ⟨2, 80, "yes", "Placed", "Beta", 500000⟩

/-- The test database. -/
def db0 : Db := ⟨[s1, s2], [p1, p2], [ss1, ss2], [pl1, pl2]⟩

/-- The Filter Students page's default inputs: every slider at its default,
certification off, internship on. -/
def defaultCriteria : Criteria := ⟨20, 3, 1, 60, 65, 25, 5, 2, 2, 60, 70, false, true⟩

/-- The default inputs with the problems-solved threshold raised from 20 to 28
(this drops student 2, whose `problem_solved` is 25). -/
def raisedCriteria : Criteria := ⟨28, 3, 1, 60, 65, 25, 5, 2, 2, 60, 70, false, true⟩

/-! ### Helper lemmas -/

/-- Membership in the filter result is membership in the filtered join: the
`ORDER BY` (insertion sort) is a permutation. -/
lemma mem_filterResult {db : Db} {c : Criteria} {r : Row} :
    r ∈ filterResult db c ↔ r ∈ joinRows db ∧ rowSatisfies c r = true := by
  rw [filterResult, List.mem_insertionSort, List.mem_filter]

/-- Characterisation of the inner join: a row is in `joinRows db` exactly when
it is assembled from one record of each table with matching `student_id`s. -/
lemma mem_joinRows {db : Db} {r : Row} :
    r ∈ joinRows db ↔
      ∃ s ∈ db.students, ∃ p ∈ db.programming, ∃ ss ∈ db.softskills,
        ∃ pl ∈ db.placements,
          (s.student_id = p.student_id ∧ s.student_id = ss.student_id ∧
            s.student_id = pl.student_id) ∧ r = mkRow s p ss pl := by
  simp only [joinRows, List.mem_flatMap]
  constructor
  · rintro ⟨s, hs, p, hp, ss, hss, pl, hpl, hmem⟩
    by_cases hc : s.student_id = p.student_id ∧ s.student_id = ss.student_id ∧
        s.student_id = pl.student_id
    · rw [if_pos hc, List.mem_singleton] at hmem
      exact ⟨s, hs, p, hp, ss, hss, pl, hpl, hc, hmem⟩
    · rw [if_neg hc] at hmem
      exact absurd hmem (List.not_mem_nil r)
  · rintro ⟨s, hs, p, hp, ss, hss, pl, hpl, hc, rfl⟩
    exact ⟨s, hs, p, hp, ss, hss, pl, hpl, by rw [if_pos hc]; exact List.mem_singleton_self _⟩

/-- The `WHERE` predicate unfolded into its eleven lower-bound comparisons and
the two conditional equality clauses. -/
lemma rowSatisfies_iff {c : Criteria} {r : Row} :
    rowSatisfies c r = true ↔
      (c.min_problem_solved ≤ r.problem_solved ∧
       c.min_assesment_completed ≤ r.assesment_completed ∧
       c.min_mini_project ≤ r.Mini_project ∧
       c.min_latest_project_score ≤ r.latest_project_score ∧
       c.min_communication ≤ r.communication ∧
       c.min_team_work ≤ r.team_work ∧
       c.min_presentation ≤ r.presentation ∧
       c.min_leadership ≤ r.leadership ∧
       c.min_critical_thinking ≤ r.Critical_thinking ∧
       c.min_interpersonal_skill ≤ r.interpersonal_skill ∧
       c.min_mock_interview_score ≤ r.mock_interview_score) ∧
      (c.required_certification = true → r.Certification = "Yes") ∧
      (c.required_internship = true → r.internship_complted = "yes") := by
  cases hc : c.required_certification <;> cases hi : c.required_internship <;>
    simp [rowSatisfies, hc, hi, and_assoc]

/-! ### Claim theorems -/

/-- C1: for every setting of the eleven numeric thresholds, every row of the
filter result comes from the inner join of Students, Programming, SoftSkills
and Placements on the shared `student_id`, and satisfies all eleven
greater-than-or-equal threshold conditions simultaneously. -/
theorem filter_rows_from_join_meet_all_thresholds (db : Db) (c : Criteria) (r : Row)
    (hr : r ∈ filterResult db c) :
    (∃ s ∈ db.students, ∃ p ∈ db.programming, ∃ ss ∈ db.softskills,
      ∃ pl ∈ db.placements,
        (s.student_id = p.student_id ∧ s.student_id = ss.student_id ∧
          s.student_id = pl.student_id) ∧ r = mkRow s p ss pl) ∧
    c.min_problem_solved ≤ r.problem_solved ∧
    c.min_assesment_completed ≤ r.assesment_completed ∧
    c.min_mini_project ≤ r.Mini_project ∧
    c.min_latest_project_score ≤ r.latest_project_score ∧
    c.min_communication ≤ r.communication ∧
    c.min_team_work ≤ r.team_work ∧
    c.min_presentation ≤ r.presentation ∧
    c.min_leadership ≤ r.leadership ∧
    c.min_critical_thinking ≤ r.Critical_thinking ∧
    c.min_interpersonal_skill ≤ r.interpersonal_skill ∧
    c.min_mock_interview_score ≤ r.mock_interview_score := by
  rw [mem_filterResult] at hr
  exact ⟨mem_joinRows.mp hr.1, (rowSatisfies_iff.mp hr.2).1⟩

/-- C1 witness: the default criteria admit student 1's joined row in the test
database, and that row meets the problems-solved and mock-interview bounds. -/
theorem filter_rows_from_join_meet_all_thresholds_witness :
    mkRow s1 p1 ss1 pl1 ∈ filterResult db0 defaultCriteria ∧
    defaultCriteria.min_problem_solved ≤ (mkRow s1 p1 ss1 pl1).problem_solved ∧
    defaultCriteria.min_mock_interview_score ≤ (mkRow s1 p1 ss1 pl1).mock_interview_score :=
  ⟨by decide,
   (filter_rows_from_join_meet_all_thresholds db0 defaultCriteria _ (by decide)).2.1,
   (filter_rows_from_join_meet_all_thresholds db0 defaultCriteria _
      (by decide)).2.2.2.2.2.2.2.2.2.2.2⟩

/-- C2: with the internship flag on and certification off every result row has
`internship_complted = "yes"`; with certification also on every result row
additionally has `Certification = "Yes"`; an off flag leaves its clause out of
the built statement (the clause slot renders as the empty string). -/
theorem flag_clauses_restrict_rows (db : Db) (c : Criteria) :
    (c.required_internship = true → c.required_certification = false →
      ∀ r ∈ filterResult db c, r.internship_complted = "yes") ∧
    (c.required_internship = true → c.required_certification = true →
      ∀ r ∈ filterResult db c, r.internship_complted = "yes" ∧ r.Certification = "Yes") ∧
    (c.required_certification = false → certClause c = "") ∧
    (c.required_internship = false → internshipClause c = "") := by
  refine ⟨fun hi _ r hr => ?_, fun hi hc r hr => ?_, fun hc => ?_, fun hi => ?_⟩
  · exact (rowSatisfies_iff.mp (mem_filterResult.mp hr).2).2.2 hi
  · have h := (rowSatisfies_iff.mp (mem_filterResult.mp hr).2).2
    exact ⟨h.2 hi, h.1 hc⟩
  · simp [certClause, hc]
  · simp [internshipClause, hi]

/-- C2 witness: in the test database under the default criteria (internship
on, certification off) student 1's row carries the affirmative internship
value, and the certification clause renders empty. -/
theorem flag_clauses_restrict_rows_witness :
    (mkRow s1 p1 ss1 pl1).internship_complted = "yes" ∧
    certClause defaultCriteria = "" :=
  ⟨(flag_clauses_restrict_rows db0 defaultCriteria).1 rfl rfl _ (by decide),
   (flag_clauses_restrict_rows db0 defaultCriteria).2.2.1 rfl⟩

/-- C3: in the filter result, a row with a strictly larger mock interview
score precedes any row with a smaller one, and among rows with equal mock
interview scores one with a strictly larger latest project score precedes the
other (`ORDER BY mock_interview_score DESC, latest_project_score DESC`). -/
theorem result_ordering_by_mock_then_project (db : Db) (c : Criteria)
    (i j : Fin (filterResult db c).length) :
    (((filterResult db c).get j).mock_interview_score <
        ((filterResult db c).get i).mock_interview_score → (i : Nat) < j) ∧
    (((filterResult db c).get i).mock_interview_score =
        ((filterResult db c).get j).mock_interview_score →
      ((filterResult db c).get j).latest_project_score <
        ((filterResult db c).get i).latest_project_score → (i : Nat) < j) := by
  have hs : List.Sorted rowOrder (filterResult db c) :=
    List.sorted_insertionSort rowOrder _
  constructor
  · intro hlt
    by_contra hij
    rcases Nat.lt_or_ge (j : Nat) (i : Nat) with hji | hle
    · have hr := hs.rel_get_of_lt (show j < i from hji)
      rcases hr with h | ⟨h1, _⟩ <;> omega
    · have : (i : Nat) = (j : Nat) := le_antisymm hle (Nat.le_of_not_lt hij)
      rw [Fin.ext this] at hlt
      omega
  · intro heq hproj
    by_contra hij
    rcases Nat.lt_or_ge (j : Nat) (i : Nat) with hji | hle
    · have hr := hs.rel_get_of_lt (show j < i from hji)
      rcases hr with h | ⟨h1, h2⟩ <;> omega
    · have : (i : Nat) = (j : Nat) := le_antisymm hle (Nat.le_of_not_lt hij)
      rw [Fin.ext this] at hproj
      omega

/-- C3 witness: in the test database's default result the row at index 1 has a
smaller mock interview score than the row at index 0, and 0 precedes 1. -/
theorem result_ordering_by_mock_then_project_witness :
    ((filterResult db0 defaultCriteria).get ⟨1, by decide⟩).mock_interview_score <
      ((filterResult db0 defaultCriteria).get ⟨0, by decide⟩).mock_interview_score ∧
    (0 : Nat) < 1 :=
  ⟨by decide,
   (result_ordering_by_mock_then_project db0 defaultCriteria
      ⟨0, by decide⟩ ⟨1, by decide⟩).1 (by decide)⟩

/-- C4: raising thresholds (pointwise, so in particular raising any single one
of the eleven while keeping the rest and both flags fixed) can only remove
rows from the filter result, never add them: the result rows of the raised
criteria are among the result rows of the original criteria. -/
theorem raising_thresholds_shrinks_result (db : Db) (c c' : Criteria)
    (hle : c.min_problem_solved ≤ c'.min_problem_solved ∧
      c.min_assesment_completed ≤ c'.min_assesment_completed ∧
      c.min_mini_project ≤ c'.min_mini_project ∧
      c.min_latest_project_score ≤ c'.min_latest_project_score ∧
      c.min_communication ≤ c'.min_communication ∧
      c.min_team_work ≤ c'.min_team_work ∧
      c.min_presentation ≤ c'.min_presentation ∧
      c.min_leadership ≤ c'.min_leadership ∧
      c.min_critical_thinking ≤ c'.min_critical_thinking ∧
      c.min_interpersonal_skill ≤ c'.min_interpersonal_skill ∧
      c.min_mock_interview_score ≤ c'.min_mock_interview_score)
    (hcert : c.required_certification = c'.required_certification)
    (hint : c.required_internship = c'.required_internship)
    (r : Row) (hr : r ∈ filterResult db c') : r ∈ filterResult db c := by
  rw [mem_filterResult] at hr ⊢
  refine ⟨hr.1, rowSatisfies_iff.mpr ?_⟩
  have h := rowSatisfies_iff.mp hr.2
  obtain ⟨⟨t1, t2, t3, t4, t5, t6, t7, t8, t9, t10, t11⟩, hc, hi⟩ := h
  obtain ⟨l1, l2, l3, l4, l5, l6, l7, l8, l9, l10, l11⟩ := hle
  refine ⟨⟨le_trans l1 t1, le_trans l2 t2, le_trans l3 t3, le_trans l4 t4,
    le_trans l5 t5, le_trans l6 t6, le_trans l7 t7, le_trans l8 t8,
    le_trans l9 t9, le_trans l10 t10, le_trans l11 t11⟩, ?_, ?_⟩
  · rw [hcert]; exact hc
  · rw [hint]; exact hi

/-- C4 witness: student 1's row survives the raised problems-solved threshold
in the test database, and the theorem places it in the default result. -/
theorem raising_thresholds_shrinks_result_witness :
    mkRow s1 p1 ss1 pl1 ∈ filterResult db0 raisedCriteria ∧
    mkRow s1 p1 ss1 pl1 ∈ filterResult db0 defaultCriteria :=
  ⟨by decide,
   raising_thresholds_shrinks_result db0 defaultCriteria raisedCriteria
     (by decide) rfl rfl _ (by decide)⟩

/-- C5: for every backend and statement, `execute_query` returns normally (the
exception channel of its result is never used), and when the backend raises —
a malformed statement or any backend error — the caller observes exactly an
empty table together with the corresponding diagnostic message. -/
theorem execute_query_total_with_diagnostic
    (backend : String → Option (List String) → Except PyError Table)
    (query : String) (params : Option (List String)) :
    (∃ out, execute_query backend query params = .ok out) ∧
    (∀ e, backend query params = .error (.databaseError e) →
      execute_query backend query params = .ok ([], ["Error executing query: " ++ e])) ∧
    (∀ e, backend query params = .error (.otherError e) →
      execute_query backend query params = .ok ([], ["An unexpected error occurred: " ++ e])) := by
  refine ⟨?_, fun e he => ?_, fun e he => ?_⟩
  · unfold execute_query
    rcases backend query params with f | df
    · rcases f with e | e <;> exact ⟨_, rfl⟩
    · exact ⟨(df, []), rfl⟩
  · unfold execute_query
    rw [he]
  · unfold execute_query
    rw [he]

/-- C5 witness: a backend that raises a database error on a deliberately
malformed statement makes `execute_query` return the empty table with the
diagnostic, not an exception. -/
theorem execute_query_total_with_diagnostic_witness :
    (fun (_ : String) (_ : Option (List String)) =>
        (.error (.databaseError "syntax error") : Except PyError Table)) "SELEC * FROM" none
        = .error (.databaseError "syntax error") ∧
    execute_query
      (fun _ _ => .error (.databaseError "syntax error")) "SELEC * FROM" none
      = .ok ([], ["Error executing query: syntax error"]) :=
  ⟨rfl,
   (execute_query_total_with_diagnostic
      (fun _ _ => .error (.databaseError "syntax error")) "SELEC * FROM" none).2.1
     "syntax error" rfl⟩

/-- C6 counterexample: the query catalog does not define fourteen report
names — it has exactly thirteen entries, so the claimed count is false. -/
theorem catalog_not_fourteen_names : ((SQL_QUERIES.map Prod.fst).length = 14) = False :=
  eq_false (by decide)

set_option maxRecDepth 100000 in
/-- C6 (amended): the query catalog defines exactly thirteen report names, and
lookup by each defined name returns that entry's SQL text, which is a
non-empty string. -/
theorem catalog_thirteen_names_nonempty_sql :
    SQL_QUERIES.length = 13 ∧
    ∀ e ∈ SQL_QUERIES, sqlLookup e.1 = some e.2 ∧ e.2 ≠ "" := by
  refine ⟨rfl, ?_⟩
  decide

/-- C7: the histogram `CASE` classifies inclusively — 49 is "0-49 (Poor)", 50
is "50-69 (Average)", 90 is "90-100 (Excellent)", NULL and out-of-range
scores are "N/A" — but the stored statement text of the report contains the
character `#` (two Python-style comments were left inside the SQL string),
which SQLite rejects, so executing the report fails instead of returning the
bucket counts. -/
theorem histogram_buckets_and_malformed_sql :
    score_range (some 49) = "0-49 (Poor)" ∧
    score_range (some 50) = "50-69 (Average)" ∧
    score_range (some 90) = "90-100 (Excellent)" ∧
    score_range none = "N/A" ∧
    score_range (some 101) = "N/A" ∧
    score_range (some (-1)) = "N/A" ∧
    ((sqlLookup "Distribution of Mock Interview Scores").getD "").data.contains '#' = true := by
  refine ⟨rfl, rfl, rfl, rfl, rfl, rfl, ?_⟩
  decide

/-- C8: the filter builder is a pure function of its thirteen inputs — equal
inputs give the character-for-character identical statement text and, against
the same database, the identical result list. -/
theorem builder_pure_deterministic (c c' : Criteria) (db : Db) (h : c = c') :
    eligibility_query c = eligibility_query c' ∧
    filterResult db c = filterResult db c' := by
  subst h
  exact ⟨rfl, rfl⟩

/-- C8 witness: at the default criteria the two runs coincide. -/
theorem builder_pure_deterministic_witness :
    defaultCriteria = defaultCriteria ∧
    eligibility_query defaultCriteria = eligibility_query defaultCriteria ∧
    filterResult db0 defaultCriteria = filterResult db0 defaultCriteria :=
  ⟨rfl,
   (builder_pure_deterministic defaultCriteria defaultCriteria db0 rfl).1,
   (builder_pure_deterministic defaultCriteria defaultCriteria db0 rfl).2⟩

/-- C9: the eleven threshold sliders carry exactly the documented ranges and
defaults, the certification checkbox defaults to off and the internship
checkbox to on. -/
theorem threshold_ranges_and_defaults :
    filterSliders.length = 11 ∧
    filterSliders =
      [⟨"Minimum Problems Solved", 0, 50, 20⟩,
       ⟨"Minimum Assessments Completed", 0, 10, 3⟩,
       ⟨"Minimum Mini Projects", 0, 5, 1⟩,
       ⟨"Minimum Latest Project Score", 0, 100, 60⟩,
       ⟨"Minimum Communication Score", 0, 100, 65⟩,
       ⟨"Minimum Team Work Score", 0, 50, 25⟩,
       ⟨"Minimum Presentation Score", 0, 10, 5⟩,
       ⟨"Minimum Leadership Score", 0, 5, 2⟩,
       ⟨"Minimum Critical Thinking Score", 0, 5, 2⟩,
       ⟨"Minimum Interpersonal Skill Score", 0, 100, 60⟩,
       ⟨"Minimum Mock Interview Score", 0, 100, 70⟩] ∧
    (∀ cfg ∈ filterSliders, cfg.minVal ≤ cfg.defVal ∧ cfg.defVal ≤ cfg.maxVal) ∧
    required_certification_default = false ∧
    required_internship_default = true := by
  refine ⟨rfl, rfl, ?_, rfl, rfl⟩
  decide

/-- C10: for every setting of the thirteen inputs the built statement projects
the same fixed list of twenty-two named columns — the statement text always
starts with the constant `SELECT ... FROM ... WHERE` section, whose projection
list names exactly these columns in this order. -/
theorem projection_fixed_twenty_two_columns :
    resultColumns =
      ["student_id", "name", "age", "gender", "course_batch", "city",
       "problem_solved", "assesment_completed", "Mini_project",
       "latest_project_score", "Certification",
       "communication", "team_work", "presentation", "leadership",
       "Critical_thinking", "interpersonal_skill",
       "mock_interview_score", "internship_complted", "Placement_status",
       "Company_name", "placement_package"] ∧
    resultColumns.length = 22 ∧
    ∀ c : Criteria, ∃ rest, eligibility_query c = querySelectSection ++ rest := by
  refine ⟨rfl, rfl, fun c => ?_⟩
  refine ⟨"P.problem_solved >= " ++ toString c.min_problem_solved ++ " AND\n            " ++
    "P.assesment_completed >= " ++ toString c.min_assesment_completed ++ " AND\n            " ++
    "P.Mini_project >= " ++ toString c.min_mini_project ++ " AND\n            " ++
    "P.latest_project_score >= " ++ toString c.min_latest_project_score ++ " AND\n            " ++
    "SS.communication >= " ++ toString c.min_communication ++ " AND\n            " ++
    "SS.team_work >= " ++ toString c.min_team_work ++ " AND\n            " ++
    "SS.presentation >= " ++ toString c.min_presentation ++ " AND\n            " ++
    "SS.leadership >= " ++ toString c.min_leadership ++ " AND\n            " ++
    "SS.Critical_thinking >= " ++ toString c.min_critical_thinking ++ " AND\n            " ++
    "SS.interpersonal_skill >= " ++ toString c.min_interpersonal_skill ++ " AND\n            " ++
    "PL.mock_interview_score >= " ++ toString c.min_mock_interview_score ++ "\n            " ++
    certClause c ++ "\n            " ++ internshipClause c ++
    "\n        ORDER BY PL.mock_interview_score DESC, P.latest_project_score DESC\n    ", ?_⟩
  simp only [eligibility_query, String.append_assoc]

end PlacementApp
